import Mathlib

/-!
Shallow embedding of the behavioral core of `Characterbot.py`:
emotion detection/blending, memory/theme tracking, system-prompt
construction, response post-processing, and the per-turn orchestrator.

Randomness in the source (`random.random()`, `random.choice`) is made
explicit: each draw of `random.random()` becomes a rational parameter in
[0,1), each `random.choice` becomes an index parameter (reduced mod the
list length, so every index denotes a valid uniform outcome), and the
per-word forgetting rolls of `update_memory` become a `Nat → Bool`
oracle (`true` = the roll `random.random() > FORGET_RATE` kept the word).
-/

namespace Characterbot

/-- Python `a in b` on strings, at the character-list level: does `kw`
occur as a contiguous run at the head of `t`? -/
def leadMatch : List Char → List Char → Bool
  | [], _ => true
  | _ :: _, [] => false
  | a :: as, b :: bs => a == b && leadMatch as bs

/-- Python `kw in t` substring containment on character lists. -/
def hasSub (kw : List Char) : List Char → Bool
  | [] => leadMatch kw []
  | c :: cs => leadMatch kw (c :: cs) || hasSub kw cs

/-- Python `kw in text` substring containment on strings. -/
def hasSubstr (text kw : String) : Bool := hasSub kw.toList text.toList

/-- Python `text.lower()` (character-wise; like `Char.toLower` this only
lowers basic latin letters, which covers every keyword in the source). -/
def pyLower (s : String) : String := String.mk (s.data.map Char.toLower)

/-- Python `s[-n:]`: the last `n` elements (the whole list when shorter). -/
def takeLast (n : Nat) (l : List α) : List α := l.drop (l.length - n)

/-- Worker for `pySplit`: `cur` holds the characters of the word being
read, in reverse. -/
def wordsAux (cur : List Char) : List Char → List String
  | [] => if cur.isEmpty then [] else [String.mk cur.reverse]
  | c :: cs =>
    if c.isWhitespace then
      if cur.isEmpty then wordsAux [] cs
      else String.mk cur.reverse :: wordsAux [] cs
    else wordsAux (c :: cur) cs

/-- Python `str.split()` with no argument: split on whitespace runs,
discarding empty pieces. -/
def pySplit (s : String) : List String := wordsAux [] s.data

/-- Python `str.strip()`: drop whitespace from both ends. -/
def pyStrip (s : String) : String :=
  String.mk (((s.data.dropWhile Char.isWhitespace).reverse.dropWhile Char.isWhitespace).reverse)

/-- Python `sep.join(l)`. -/
def joinSep (sep : String) : List String → String
  | [] => ""
  | [w] => w
  | w :: ws => w ++ sep ++ joinSep sep ws

/-- Python `random.choice(l)` with the uniform draw given as an index
`i` (reduced mod `l.length`); `l` is nonempty at every call site. -/
def pyChoice (l : List String) (i : Nat) : String :=
  l.getD (i % l.length) ""

/-- `BehaviorConfig` dataclass (temperature is irrelevant to the core
logic proper, kept for fidelity). -/
structure BehaviorConfig where
  enable_memory : Bool := true
  enable_openers : Bool := true
  temperature : ℚ := 7/10
deriving Repr, DecidableEq

/-- One `{"role": ..., "content": ...}` message dict. -/
structure Turn where
  role : String
  content : String
deriving Repr, DecidableEq

/-- `CognitiveState` dataclass. -/
structure CognitiveState where
  emotion_history : List String := []
  memory_turns : List Turn := []
  theme_fragments : List String := []
deriving Repr, DecidableEq

/-! ## Emotion engine -/

/-- `EMOTION_KEYWORDS` dict, in insertion order. -/
def EMOTION_KEYWORDS : List (String × List String) :=
  [("curious",   ["how", "why", "what if", "explain", "?"]),
   ("warm",      ["thank", "love", "grateful"]),
   ("energetic", ["!", "great", "awesome"]),
   ("pensive",   ["think", "reflect", "meaning"]),
   ("uncertain", ["not sure", "maybe", "might"])]

/-- The score accumulation loop of `detect_emotion`: +1 for each keyword
contained in `text`. -/
def emoScore (text : String) (keywords : List String) : Nat :=
  keywords.foldl (fun acc kw => if hasSubstr text kw then acc + 1 else acc) 0

/-- Python `max(scores, key=scores.get)`: fold keeping the first
maximal entry (a later entry replaces only on a strictly larger score). -/
def pyMaxBy (l : List (String × Nat)) (init : String × Nat) : String × Nat :=
  l.foldl (fun b q => if b.2 < q.2 then q else b) init

/-- `detect_emotion`. -/
def detect_emotion (text : String) : String :=
  let t := pyLower text
  let scores := EMOTION_KEYWORDS.map (fun p => (p.1, emoScore t p.2))
  match scores with
  | [] => "neutral"
  | s :: rest =>
    let best := pyMaxBy rest s
    if best.2 > 0 then best.1 else "neutral"

/-- `blend_emotion`; `roll` is the draw of `random.random()` and
`choice` the index drawn by `random.choice`. -/
def blend_emotion (history : List String) (roll : ℚ) (choice : Nat) : String :=
  if history.isEmpty then "neutral"
  else if roll < 7/10 then (history.getLast?).getD ""
  else pyChoice (takeLast 3 history) choice

/-! ## Memory engine -/

def MAX_TURNS : Nat := 6

/-- The list comprehension of `update_memory`:
`[w for w in words if random.random() > FORGET_RATE or len(w) > 5]`.
`rolls i` is the outcome of the roll drawn for the `i`-th word. -/
def themeFilter (rolls : Nat → Bool) : Nat → List String → List String
  | _, [] => []
  | i, w :: ws =>
    if rolls i = true ∨ 5 < w.length then w :: themeFilter rolls (i + 1) ws
    else themeFilter rolls (i + 1) ws

/-- `update_memory` (state passed and returned explicitly). -/
def update_memory (state : CognitiveState) (role content : String)
    (rolls : Nat → Bool) : CognitiveState :=
  let memory_turns := takeLast (MAX_TURNS * 2) (state.memory_turns ++ [⟨role, content⟩])
  if role = "user" then
    let words := pySplit content
    let filtered := themeFilter rolls 0 words
    let fragment := joinSep " " (filtered.take 10)
    { state with
        memory_turns := memory_turns
        theme_fragments := takeLast 8 (state.theme_fragments ++ [fragment]) }
  else
    { state with memory_turns := memory_turns }

/-- `memory_summary`. -/
def memory_summary (state : CognitiveState) : String :=
  if state.theme_fragments.isEmpty then ""
  else "Recent themes: " ++ joinSep "; " (takeLast 4 state.theme_fragments)

/-! ## Personality engine -/

def OPINION_OPENERS : List String :=
  ["I think ", "Honestly, ", "From where I stand, ", "I'd say ", "My sense is that "]

def REFLECTIVE_PAUSES : List String :=
  ["Hmm. ", "Let me think. ", "Okay, so — ", ""]

def UNCERTAINTY_PHRASES : List String :=
  ["I'm not entirely sure, but ", "I could be wrong here — "]

/-- The `tone_map` dict of `build_system_prompt`. -/
def tone_map : List (String × String) :=
  [("neutral",   "Stay natural and grounded."),
   ("curious",   "Show curiosity and mild engagement."),
   ("warm",      "Be warm and human."),
   ("pensive",   "Sound reflective."),
   ("energetic", "Be sharp and energetic."),
   ("uncertain", "Allow slight uncertainty.")]

def basePrompt : String :=
  "You are a thoughtful human speaking naturally. " ++
  "Use first-person language. Avoid lists and headers. " ++
  "Vary sentence length. Don't over-explain. " ++
  "Never say you're an AI."

/-- `build_system_prompt`: `tone_map.get(emotion, tone_map["neutral"])`
then the f-string `f"{base} {tone} {memory_text}"`. -/
def build_system_prompt (emotion memory_text : String) : String :=
  let tone := ((tone_map.find? (fun p => p.1 == emotion)).map Prod.snd).getD
    "Stay natural and grounded."
  basePrompt ++ " " ++ tone ++ " " ++ memory_text

/-- `post_process`; `roll` is the one draw of `random.random()` shared
by the three branch conditions, `choice` the index drawn by the
`random.choice` of whichever branch fires. -/
def post_process (text emotion : String) (config : BehaviorConfig)
    (roll : ℚ) (choice : Nat) : String :=
  let t := pyStrip text
  if config.enable_openers = true ∧ 6 < (pySplit t).length then
    if emotion = "pensive" ∧ roll < 1/2 then pyChoice REFLECTIVE_PAUSES choice ++ t
    else if emotion = "uncertain" ∧ roll < 1/2 then pyChoice UNCERTAINTY_PHRASES choice ++ t
    else if roll < 1/5 then pyChoice OPINION_OPENERS choice ++ t
    else t
  else t

/-! ## LLM layer and turn orchestrator

`stream_llm` filters out chunks with an empty text payload
(`if token: yield token`).  The backend itself is external: a turn's
interaction with it is abstracted as a `StreamOutcome` — either the
full chunk list was produced, or the stream raised mid-way with only a
prefix of chunks accumulated in `raw_chunks`.  In the Python source an
exception raised inside the generator propagates through
`st.write_stream`, aborting the script run right there: `session_state`
mutations already made persist, the lines after `st.write_stream` do
not execute.  `runTurn` reflects exactly that control flow. -/

/-- The chunk filter of `stream_llm`: only non-empty tokens are yielded
(and hence accumulated into `raw_chunks` by `token_gen`). -/
def streamTokens (chunks : List String) : List String :=
  chunks.filter (fun token => token ≠ "")

/-- Outcome of the external streaming call for one turn. -/
inductive StreamOutcome where
  | ok (chunks : List String)
  | failed (accumulated : List String)
deriving Repr, DecidableEq

/-- The per-session `st.session_state` fields the turn handler touches. -/
structure SessionState where
  messages : List Turn
  cognitive_state : CognitiveState
  last_emotion : String
  turn_count : Nat
deriving Repr, DecidableEq

/-- Initial session state (the `if ... not in st.session_state` block). -/
def initialSession : SessionState :=
  { messages := [], cognitive_state := {}, last_emotion := "neutral", turn_count := 0 }

/-- The "Clear Session" button handler: every field reset at once. -/
def clearSession : SessionState :=
  { messages := [], cognitive_state := {}, last_emotion := "neutral", turn_count := 0 }

/-- All random draws one turn can consume, made explicit. -/
structure TurnRand where
  blendRoll : ℚ
  blendChoice : Nat
  memRollsUser : Nat → Bool
  postRoll : ℚ
  postChoice : Nat
  memRollsAsst : Nat → Bool

/-- The `if user_input:` turn handler.  On `.ok` the accumulated reply
is post-processed, appended, and the counter bumped; on `.failed` the
handler is cut short at `st.write_stream` and only the mutations made
before the stream remain. -/
def runTurn (s : SessionState) (user_input : String) (config : BehaviorConfig)
    (r : TurnRand) (outcome : StreamOutcome) : SessionState :=
  let messages := s.messages ++ [⟨"user", user_input⟩]
  let state := s.cognitive_state
  let emotion := detect_emotion user_input
  let state := { state with emotion_history := state.emotion_history ++ [emotion] }
  let blended := blend_emotion state.emotion_history r.blendRoll r.blendChoice
  let state := if config.enable_memory then update_memory state "user" user_input r.memRollsUser
               else state
  match outcome with
  | .failed _ =>
      { messages := messages, cognitive_state := state,
        last_emotion := blended, turn_count := s.turn_count }
  | .ok chunks =>
      let raw_reply := joinSep "" (streamTokens chunks)
      let final_reply := post_process raw_reply blended config r.postRoll r.postChoice
      let messages := messages ++ [⟨"assistant", final_reply⟩]
      let state := if config.enable_memory then update_memory state "assistant" final_reply r.memRollsAsst
                   else state
      { messages := messages, cognitive_state := state,
        last_emotion := blended, turn_count := s.turn_count + 1 }

/-- A sequence of successfully streamed turns. -/
def runTurns (s : SessionState)
    (ts : List (String × BehaviorConfig × TurnRand × List String)) : SessionState :=
  ts.foldl (fun st t => runTurn st t.1 t.2.1 t.2.2.1 (.ok t.2.2.2)) s

/-- A sequence of `update_memory` calls, each with its own role, content
and forgetting rolls. -/
def applyCalls (s : CognitiveState)
    (calls : List (String × String × (Nat → Bool))) : CognitiveState :=
  calls.foldl (fun st c => update_memory st c.1 c.2.1 c.2.2) s

/-! ## Specification-side formulations

These restate spec claims independently of the source's control flow, to
be compared with the definitions above. -/

/-- The five keyword scores of a text, in the order the classifier's
dict lists them (curious, warm, energetic, pensive, uncertain). -/
def scores5 (text : String) : Nat × Nat × Nat × Nat × Nat :=
  let t := pyLower text
  (emoScore t ["how", "why", "what if", "explain", "?"],
   emoScore t ["thank", "love", "grateful"],
   emoScore t ["!", "great", "awesome"],
   emoScore t ["think", "reflect", "meaning"],
   emoScore t ["not sure", "maybe", "might"])

/-- The maximum keyword score of a text. -/
def maxEmoScore (text : String) : Nat :=
  let (c, w, e, p, u) := scores5 text
  max c (max w (max e (max p u)))

/-- Spec formulation of the classifier: the first label in the fixed
order curious, warm, energetic, pensive, uncertain whose score is
maximal; `"neutral"` exactly when the maximum score is 0. -/
def firstMaxEmotion (text : String) : String :=
  let (c, w, e, p, u) := scores5 text
  let m := max c (max w (max e (max p u)))
  if m = 0 then "neutral"
  else if c = m then "curious"
  else if w = m then "warm"
  else if e = m then "energetic"
  else if p = m then "pensive"
  else "uncertain"

/-- Spec formulation of the surviving theme words: each word of the
content is kept when its roll keeps it or its length exceeds 5, in
original order. -/
def keptWordsSpec (content : String) (rolls : Nat → Bool) : List String :=
  (((pySplit content).enum).filter
    (fun p => rolls p.1 || decide (5 < p.2.length))).map Prod.snd

/-- The theme fragment `update_memory` builds for a user content. -/
def mkFragment (content : String) (rolls : Nat → Bool) : String :=
  joinSep " " ((themeFilter rolls 0 (pySplit content)).take 10)

/-- Spec formulation of the tone clause: exact-match lookup over the 6
known labels, any other label falling back to the neutral clause. -/
def toneSpec (emotion : String) : String :=
  if emotion = "neutral" then "Stay natural and grounded."
  else if emotion = "curious" then "Show curiosity and mild engagement."
  else if emotion = "warm" then "Be warm and human."
  else if emotion = "pensive" then "Sound reflective."
  else if emotion = "energetic" then "Be sharp and energetic."
  else if emotion = "uncertain" then "Allow slight uncertainty."
  else "Stay natural and grounded."

/-! ## Helper lemmas -/

theorem takeLast_length (n : Nat) (l : List α) :
    (takeLast n l).length = min n l.length := by
  simp only [takeLast, List.length_drop]
  omega

theorem takeLast_length_le (n : Nat) (l : List α) :
    (takeLast n l).length ≤ n := by
  rw [takeLast_length]; omega

theorem takeLast_suffix (n : Nat) (l : List α) : takeLast n l <:+ l :=
  List.drop_suffix _ _

theorem takeLast_min (n : Nat) (l : List α) :
    takeLast n l = takeLast (min n l.length) l := by
  simp only [takeLast]
  congr 1
  omega

theorem takeLast_ne_nil (n : Nat) (l : List α) (hn : 0 < n) (hl : l ≠ []) :
    takeLast n l ≠ [] := by
  have := takeLast_length n l
  intro h
  rw [h] at this
  simp only [List.length_nil] at this
  have : l.length = 0 := by omega
  exact hl (List.length_eq_zero.mp this)

theorem getLast_mem_takeLast (l : List α) (d : α) (n : Nat)
    (hl : l ≠ []) (hn : 0 < n) : l.getLast?.getD d ∈ takeLast n l := by
  have hne : takeLast n l ≠ [] := takeLast_ne_nil n l hn hl
  have hsplit : l = l.take (l.length - n) ++ takeLast n l :=
    (List.take_append_drop _ l).symm
  have : l.getLast? = (takeLast n l).getLast? := by
    conv_lhs => rw [hsplit]
    exact List.getLast?_append_of_ne_nil _ hne
  rw [this, List.getLast?_eq_getLast _ hne]
  exact List.getLast_mem hne

theorem pyChoice_mem (l : List String) (i : Nat) (hl : l ≠ []) :
    pyChoice l i ∈ l := by
  have hlen : 0 < l.length := List.length_pos.mpr hl
  have hi : i % l.length < l.length := Nat.mod_lt _ hlen
  rw [pyChoice, List.getD_eq_getElem l _ hi]
  exact List.getElem_mem hi

set_option maxHeartbeats 2000000 in
/-- The source's fold over the scores dict picks exactly the first label
in iteration order whose score is maximal (and `"neutral"` on an
all-zero score vector). -/
theorem detect_eq_firstMax (text : String) :
    detect_emotion text = firstMaxEmotion text := by
  unfold detect_emotion firstMaxEmotion scores5 EMOTION_KEYWORDS pyMaxBy
  simp only [List.map, List.foldl]
  generalize emoScore (pyLower text) ["how", "why", "what if", "explain", "?"] = c
  generalize emoScore (pyLower text) ["thank", "love", "grateful"] = w
  generalize emoScore (pyLower text) ["!", "great", "awesome"] = e
  generalize emoScore (pyLower text) ["think", "reflect", "meaning"] = p
  generalize emoScore (pyLower text) ["not sure", "maybe", "might"] = u
  split_ifs <;> first | rfl | omega

theorem detect_neutral_iff (text : String) :
    detect_emotion text = "neutral" ↔ maxEmoScore text = 0 := by
  rw [detect_eq_firstMax]
  rcases h : scores5 text with ⟨c, w, e, p, u⟩
  unfold firstMaxEmotion maxEmoScore
  rw [h]
  dsimp only
  split_ifs with hm <;> simp [hm]

theorem foldl_count (q : String → Bool) (l : List String) (n : Nat) :
    l.foldl (fun acc kw => if q kw then acc + 1 else acc) n
      = n + (l.filter q).length := by
  induction l generalizing n with
  | nil => simp
  | cons a l ih =>
    simp only [List.foldl_cons, List.filter_cons]
    by_cases h : q a
    · simp only [h, if_true, ih, List.length_cons]
      omega
    · simp only [h, if_false, ih, Bool.false_eq_true]

theorem emoScore_eq_presence (text : String) (keywords : List String) :
    emoScore text keywords
      = (keywords.filter (fun kw => hasSubstr text kw)).length := by
  unfold emoScore
  rw [foldl_count (fun kw => hasSubstr text kw)]
  simp

theorem themeFilter_eq_keptWords (rolls : Nat → Bool) (l : List String) (i : Nat) :
    themeFilter rolls i l
      = ((List.enumFrom i l).filter
          (fun p => rolls p.1 || decide (5 < p.2.length))).map Prod.snd := by
  induction l generalizing i with
  | nil => rfl
  | cons w ws ih =>
    simp only [themeFilter, List.enumFrom, List.filter_cons]
    by_cases h : rolls i = true ∨ 5 < w.length
    · have hb : (rolls i || decide (5 < w.length)) = true := by
        rcases h with h | h
        · simp [h]
        · simp [h]
      simp only [h, if_true, hb, List.map_cons, ih]
    · have hb : (rolls i || decide (5 < w.length)) = false := by
        push_neg at h
        simp [h.1, h.2]
      simp only [h, if_false, hb, ih]
      simp

theorem update_memory_memory_turns (s : CognitiveState) (role content : String)
    (g : Nat → Bool) :
    (update_memory s role content g).memory_turns
      = takeLast 12 (s.memory_turns ++ [⟨role, content⟩]) := by
  unfold update_memory
  split_ifs <;> rfl

theorem update_memory_theme_user (s : CognitiveState) (content : String)
    (g : Nat → Bool) :
    (update_memory s "user" content g).theme_fragments
      = takeLast 8 (s.theme_fragments ++ [mkFragment content g]) := by
  unfold update_memory mkFragment
  rw [if_pos rfl]

theorem update_memory_theme_other (s : CognitiveState) (role content : String)
    (g : Nat → Bool) (h : role ≠ "user") :
    (update_memory s role content g).theme_fragments = s.theme_fragments := by
  unfold update_memory
  rw [if_neg h]

theorem update_memory_theme_le (s : CognitiveState) (role content : String)
    (g : Nat → Bool) (h : s.theme_fragments.length ≤ 8) :
    (update_memory s role content g).theme_fragments.length ≤ 8 := by
  by_cases hr : role = "user"
  · subst hr
    rw [update_memory_theme_user]
    exact takeLast_length_le _ _
  · rw [update_memory_theme_other _ _ _ _ hr]
    exact h

theorem applyCalls_inv (calls : List (String × String × (Nat → Bool))) :
    ∀ s : CognitiveState, s.memory_turns.length ≤ 12 → s.theme_fragments.length ≤ 8 →
      (applyCalls s calls).memory_turns.length ≤ 12 ∧
      (applyCalls s calls).theme_fragments.length ≤ 8 := by
  induction calls with
  | nil => exact fun s h1 h2 => ⟨h1, h2⟩
  | cons c cs ih =>
    intro s h1 h2
    simp only [applyCalls, List.foldl_cons]
    refine ih (update_memory s c.1 c.2.1 c.2.2) ?_ ?_
    · rw [update_memory_memory_turns]
      exact takeLast_length_le _ _
    · exact update_memory_theme_le _ _ _ _ h2

theorem runTurn_ok_messages (s : SessionState) (input : String)
    (config : BehaviorConfig) (r : TurnRand) (chunks : List String) :
    (runTurn s input config r (.ok chunks)).messages
      = s.messages ++ [⟨"user", input⟩,
          ⟨"assistant",
            post_process (joinSep "" (streamTokens chunks))
              (blend_emotion (s.cognitive_state.emotion_history ++ [detect_emotion input])
                r.blendRoll r.blendChoice)
              config r.postRoll r.postChoice⟩] := by
  unfold runTurn
  dsimp only
  rw [List.append_assoc]
  rfl

theorem runTurns_inv (ts : List (String × BehaviorConfig × TurnRand × List String)) :
    ∀ s : SessionState, s.messages.length = 2 * s.turn_count →
      (runTurns s ts).messages.length = 2 * (runTurns s ts).turn_count := by
  induction ts with
  | nil => exact fun s h => h
  | cons t ts ih =>
    intro s h
    simp only [runTurns, List.foldl_cons]
    refine ih _ ?_
    rw [runTurn_ok_messages]
    show (s.messages ++ [_, _]).length = 2 * (s.turn_count + 1)
    rw [List.length_append, h]
    rfl

theorem memory_summary_of_ne (s : CognitiveState) (h : s.theme_fragments ≠ []) :
    memory_summary s
      = "Recent themes: " ++ joinSep "; " (takeLast 4 s.theme_fragments) := by
  unfold memory_summary
  rw [if_neg (by simp [List.isEmpty_iff, h])]

theorem memory_summary_ne_empty (s : CognitiveState) (h : s.theme_fragments ≠ []) :
    memory_summary s ≠ "" := by
  rw [memory_summary_of_ne s h]
  intro heq
  have hlen := congrArg String.length heq
  rw [String.length_append] at hlen
  have h15 : ("Recent themes: " : String).length = 15 := rfl
  have h0 : ("" : String).length = 0 := rfl
  omega

theorem build_system_prompt_eq (e m : String) :
    build_system_prompt e m = basePrompt ++ " " ++ toneSpec e ++ " " ++ m := by
  by_cases h1 : e = "neutral"
  · subst h1; rfl
  by_cases h2 : e = "curious"
  · subst h2; rfl
  by_cases h3 : e = "warm"
  · subst h3; rfl
  by_cases h4 : e = "pensive"
  · subst h4; rfl
  by_cases h5 : e = "energetic"
  · subst h5; rfl
  by_cases h6 : e = "uncertain"
  · subst h6; rfl
  unfold build_system_prompt toneSpec tone_map
  rw [if_neg h1, if_neg h2, if_neg h3, if_neg h4, if_neg h5, if_neg h6]
  simp only [List.find?]
  rw [show (("neutral" : String) == e) = false from beq_eq_false_iff_ne.mpr (Ne.symm h1),
      show (("curious" : String) == e) = false from beq_eq_false_iff_ne.mpr (Ne.symm h2),
      show (("warm" : String) == e) = false from beq_eq_false_iff_ne.mpr (Ne.symm h3),
      show (("pensive" : String) == e) = false from beq_eq_false_iff_ne.mpr (Ne.symm h4),
      show (("energetic" : String) == e) = false from beq_eq_false_iff_ne.mpr (Ne.symm h5),
      show (("uncertain" : String) == e) = false from beq_eq_false_iff_ne.mpr (Ne.symm h6)]
  rfl

/-! ## The claims -/

/-- C1, counterexample: the claim that a turn whose streaming call fails
mid-stream still completes — partial text recorded as the assistant
message and `turn_count` incremented — is false on the code.  Starting
from a fresh session, one turn with a failing stream leaves the user
message appended and the memory updated, yet records no assistant
message and leaves `turn_count` at 0, not 1. -/
theorem C1_stream_failure_counterexample :
    (runTurn initialSession "hello" {}
        ⟨0, 0, fun _ => true, 0, 0, fun _ => true⟩ (.failed ["par"])).messages
      = [⟨"user", "hello"⟩] ∧
    (runTurn initialSession "hello" {}
        ⟨0, 0, fun _ => true, 0, 0, fun _ => true⟩
        (.failed ["par"])).cognitive_state.memory_turns
      = [⟨"user", "hello"⟩] ∧
    (runTurn initialSession "hello" {}
        ⟨0, 0, fun _ => true, 0, 0, fun _ => true⟩ (.failed ["par"])).turn_count = 0 ∧
    (runTurn initialSession "hello" {}
        ⟨0, 0, fun _ => true, 0, 0, fun _ => true⟩ (.failed ["par"])).turn_count
      ≠ initialSession.turn_count + 1 :=
  ⟨rfl, rfl, rfl, by decide⟩

/-- C1, amended: per-turn state atomicity holds only for turns whose
stream completes.  When the streaming call fails mid-stream the turn
does NOT complete: the user message (and the pre-stream memory and
emotion updates) persist, no assistant message is recorded, and
`turn_count` is unchanged; on a successful stream the user and
assistant messages are appended and `turn_count` is incremented
together. -/
theorem C1_turn_atomicity_amended :
    ∀ (s : SessionState) (input : String) (config : BehaviorConfig) (r : TurnRand),
      (∀ acc, (runTurn s input config r (.failed acc)).messages
                = s.messages ++ [⟨"user", input⟩] ∧
              (runTurn s input config r (.failed acc)).turn_count = s.turn_count) ∧
      (∀ chunks, ∃ reply,
          (runTurn s input config r (.ok chunks)).messages
            = s.messages ++ [⟨"user", input⟩, ⟨"assistant", reply⟩] ∧
          (runTurn s input config r (.ok chunks)).turn_count = s.turn_count + 1) := by
  intro s input config r
  refine ⟨fun acc => ⟨rfl, rfl⟩, fun chunks => ⟨_, runTurn_ok_messages s input config r chunks, rfl⟩⟩

/-- C2: after any sequence of `update_memory` calls from the empty
state, `memory_turns` has at most 12 entries and `theme_fragments` at
most 8; each truncation keeps a suffix (the most recent entries) of the
appended list, dropping the oldest first. -/
theorem C2_memory_bound_invariants :
    (∀ calls, (applyCalls {} calls).memory_turns.length ≤ 12 ∧
              (applyCalls {} calls).theme_fragments.length ≤ 8) ∧
    (∀ (s : CognitiveState) (role content : String) (g : Nat → Bool),
        (update_memory s role content g).memory_turns
          = takeLast 12 (s.memory_turns ++ [⟨role, content⟩]) ∧
        (update_memory s role content g).memory_turns
          <:+ s.memory_turns ++ [⟨role, content⟩] ∧
        (role = "user" →
          (update_memory s role content g).theme_fragments
            = takeLast 8 (s.theme_fragments ++ [mkFragment content g]) ∧
          (update_memory s role content g).theme_fragments
            <:+ s.theme_fragments ++ [mkFragment content g])) := by
  constructor
  · intro calls
    exact applyCalls_inv calls {} (by simp) (by simp)
  · intro s role content g
    refine ⟨update_memory_memory_turns s role content g, ?_, ?_⟩
    · rw [update_memory_memory_turns]
      exact takeLast_suffix _ _
    · intro hrole
      subst hrole
      exact ⟨update_memory_theme_user s content g,
             update_memory_theme_user s content g ▸ takeLast_suffix _ _⟩

theorem C2_memory_bound_invariants_witness :
    (update_memory {} "user" "hello world" (fun _ => true)).theme_fragments
      = takeLast 8 (({} : CognitiveState).theme_fragments
          ++ [mkFragment "hello world" (fun _ => true)]) :=
  ((C2_memory_bound_invariants.2 {} "user" "hello world" (fun _ => true)).2.2 rfl).1

/-- C3: `detect_emotion` returns the first label in the fixed order
curious, warm, energetic, pensive, uncertain whose keyword score over
the lowercased text is maximal, and returns `"neutral"` exactly when
the maximum score is 0; `detect_emotion ""` is `"neutral"` and
`detect_emotion "thank you, explain?"` is `"curious"` (curious scores
2, warm scores 1). -/
theorem C3_detect_emotion_contract :
    (∀ text, detect_emotion text = firstMaxEmotion text) ∧
    (∀ text, detect_emotion text = "neutral" ↔ maxEmoScore text = 0) ∧
    detect_emotion "" = "neutral" ∧
    detect_emotion "thank you, explain?" = "curious" ∧
    scores5 "thank you, explain?" = (2, 1, 0, 0, 0) :=
  ⟨detect_eq_firstMax, detect_neutral_iff, rfl, by decide, by decide⟩

/-- C4: `blend_emotion` of an empty history is `"neutral"`; for a
nonempty history every random outcome yields an element of the last
`min 3 (length history)` entries; a roll below 0.7 yields the most
recent entry; and `blend_emotion ["warm"]` is always `"warm"`. -/
theorem C4_blend_emotion_contract :
    (∀ (roll : ℚ) (choice : Nat), blend_emotion [] roll choice = "neutral") ∧
    (∀ (history : List String) (roll : ℚ) (choice : Nat), history ≠ [] →
        blend_emotion history roll choice
          ∈ takeLast (min 3 history.length) history) ∧
    (∀ (history : List String) (roll : ℚ) (choice : Nat), history ≠ [] →
        roll < 7/10 →
        blend_emotion history roll choice = (history.getLast?).getD "") ∧
    (∀ (roll : ℚ) (choice : Nat), blend_emotion ["warm"] roll choice = "warm") := by
  refine ⟨fun roll choice => rfl, ?_, ?_, ?_⟩
  · intro history roll choice hne
    rw [← takeLast_min]
    unfold blend_emotion
    rw [if_neg (by simp [List.isEmpty_iff, hne])]
    split_ifs
    · exact getLast_mem_takeLast history "" 3 hne (by omega)
    · exact pyChoice_mem _ _ (takeLast_ne_nil 3 history (by omega) hne)
  · intro history roll choice hne hroll
    unfold blend_emotion
    rw [if_neg (by simp [List.isEmpty_iff, hne]), if_pos hroll]
  · intro roll choice
    unfold blend_emotion
    rw [if_neg (by decide)]
    split_ifs
    · rfl
    · simp [pyChoice, takeLast, Nat.mod_one]

theorem C4_blend_emotion_contract_witness :
    blend_emotion ["a", "warm"] 0 5
        ∈ takeLast (min 3 (["a", "warm"] : List String).length) ["a", "warm"] ∧
    blend_emotion ["a", "warm"] 0 5
        = (((["a", "warm"] : List String)).getLast?).getD "" :=
  ⟨C4_blend_emotion_contract.2.1 ["a", "warm"] 0 5 (by simp),
   C4_blend_emotion_contract.2.2.1 ["a", "warm"] 0 5 (by simp) (by simp)⟩

/-- C5: every completed user→assistant exchange appends exactly the
user turn then the assistant turn (two messages) and increments
`turn_count` by one; hence `length messages = 2 * turn_count` after any
sequence of completed turns from a cleared session, and after a clear
itself. -/
theorem C5_two_messages_per_completed_turn :
    (∀ (s : SessionState) (input : String) (config : BehaviorConfig) (r : TurnRand)
        (chunks : List String), ∃ reply,
        (runTurn s input config r (.ok chunks)).messages
          = s.messages ++ [⟨"user", input⟩, ⟨"assistant", reply⟩] ∧
        (runTurn s input config r (.ok chunks)).messages.length
          = s.messages.length + 2 ∧
        (runTurn s input config r (.ok chunks)).turn_count = s.turn_count + 1) ∧
    (∀ ts, (runTurns clearSession ts).messages.length
          = 2 * (runTurns clearSession ts).turn_count) ∧
    clearSession.messages.length = 2 * clearSession.turn_count ∧
    initialSession.messages.length = 2 * initialSession.turn_count := by
  refine ⟨?_, fun ts => runTurns_inv ts clearSession rfl, rfl, rfl⟩
  intro s input config r chunks
  refine ⟨_, runTurn_ok_messages s input config r chunks, ?_, rfl⟩
  rw [runTurn_ok_messages]
  simp

/-- C6: `update_memory` appends a theme fragment only for role
`"user"`; the fragment joins with single spaces the first 10 words that
survive the per-word filter (kept when the roll keeps them or their
length exceeds 5), in original order; a fragment where every word was
dropped is the empty string and is still appended. -/
theorem C6_theme_extraction :
    (∀ (s : CognitiveState) (role content : String) (g : Nat → Bool),
        role ≠ "user" →
        (update_memory s role content g).theme_fragments = s.theme_fragments) ∧
    (∀ (s : CognitiveState) (content : String) (g : Nat → Bool),
        (update_memory s "user" content g).theme_fragments
          = takeLast 8 (s.theme_fragments
              ++ [joinSep " " ((keptWordsSpec content g).take 10)])) ∧
    (update_memory {} "user" "a bb ccc" (fun _ => false)).theme_fragments = [""] := by
  refine ⟨update_memory_theme_other, ?_, by decide⟩
  intro s content g
  rw [update_memory_theme_user]
  unfold mkFragment keptWordsSpec
  rw [themeFilter_eq_keptWords]
  rfl

theorem C6_theme_extraction_witness :
    (update_memory {} "assistant" "great stuff" (fun _ => true)).theme_fragments
      = ({} : CognitiveState).theme_fragments :=
  C6_theme_extraction.1 {} "assistant" "great stuff" (fun _ => true) (by decide)

/-- C7: `memory_summary` is the empty string exactly when
`theme_fragments` is empty, and otherwise is the literal prefix
`"Recent themes: "` followed by the last 4 fragments joined with
`"; "`; on `["a","b","c","d","e"]` it is exactly
`"Recent themes: b; c; d; e"`. -/
theorem C7_memory_summary_contract :
    (∀ s : CognitiveState, memory_summary s = "" ↔ s.theme_fragments = []) ∧
    (∀ s : CognitiveState, s.theme_fragments ≠ [] →
        memory_summary s
          = "Recent themes: " ++ joinSep "; " (takeLast 4 s.theme_fragments)) ∧
    memory_summary { theme_fragments := ["a", "b", "c", "d", "e"] }
      = "Recent themes: b; c; d; e" := by
  refine ⟨?_, memory_summary_of_ne, by decide⟩
  intro s
  constructor
  · intro h
    by_contra hne
    exact memory_summary_ne_empty s hne h
  · intro h
    unfold memory_summary
    rw [if_pos (by simp [List.isEmpty_iff, h])]

theorem C7_memory_summary_contract_witness :
    memory_summary { theme_fragments := ["x"] }
      = "Recent themes: "
          ++ joinSep "; " (takeLast 4 ({ theme_fragments := ["x"] } : CognitiveState).theme_fragments) :=
  C7_memory_summary_contract.2.1 { theme_fragments := ["x"] } (by simp)

/-- C8: `build_system_prompt` is exactly the base instruction, a space,
the tone clause selected by exact-match lookup on the emotion (with the
neutral clause as fallback for any unknown label, without failing), a
space, and the memory text; an empty memory text leaves the trailing
space in place. -/
theorem C8_build_system_prompt_contract :
    (∀ emotion memory_text, build_system_prompt emotion memory_text
        = basePrompt ++ " " ++ toneSpec emotion ++ " " ++ memory_text) ∧
    (∀ emotion memory_text,
        emotion ∉ (["neutral", "curious", "warm", "pensive", "energetic",
                    "uncertain"] : List String) →
        build_system_prompt emotion memory_text
          = build_system_prompt "neutral" memory_text) ∧
    (∀ emotion, build_system_prompt emotion ""
        = basePrompt ++ " " ++ toneSpec emotion ++ " ") := by
  refine ⟨build_system_prompt_eq, ?_, ?_⟩
  · intro e m h
    simp only [List.mem_cons, List.not_mem_nil, or_false] at h
    push_neg at h
    obtain ⟨h1, h2, h3, h4, h5, h6⟩ := h
    rw [build_system_prompt_eq, build_system_prompt_eq]
    congr 2
    simp [toneSpec, h1, h2, h3, h4, h5, h6]
  · intro e
    rw [build_system_prompt_eq]
    simp

theorem C8_build_system_prompt_contract_witness :
    build_system_prompt "unknown_label" "X" = build_system_prompt "neutral" "X" :=
  C8_build_system_prompt_contract.2.1 "unknown_label" "X" (by decide)

/-- C9: `post_process` is a randomness-independent no-op (beyond
trimming) whenever openers are disabled or the trimmed text has at most
6 whitespace-delimited words; in particular it maps `"hi there"` to
itself for every config and every random outcome. -/
theorem C9_post_process_noop :
    (∀ (text emotion : String) (config : BehaviorConfig) (roll : ℚ) (choice : Nat),
        config.enable_openers = false ∨ (pySplit (pyStrip text)).length ≤ 6 →
        post_process text emotion config roll choice = pyStrip text) ∧
    (∀ (config : BehaviorConfig) (roll : ℚ) (choice : Nat),
        post_process "hi there" "neutral" config roll choice = "hi there") := by
  constructor
  · intro text emotion config roll choice h
    simp only [post_process]
    rw [if_neg]
    rintro ⟨ha, hb⟩
    rcases h with h | h
    · rw [h] at ha
      exact Bool.false_ne_true ha
    · omega
  · intro config roll choice
    simp only [post_process]
    rw [if_neg]
    · rfl
    · rintro ⟨-, hb⟩
      exact absurd hb (by decide)

theorem C9_post_process_noop_witness :
    post_process " padded text here surely " "neutral"
        { enable_memory := true, enable_openers := false, temperature := 0 } 0 0
      = pyStrip " padded text here surely " :=
  C9_post_process_noop.1 " padded text here surely " "neutral"
    { enable_memory := true, enable_openers := false, temperature := 0 } 0 0 (Or.inl rfl)

/-- C10: each trigger substring contributes at most 1 to its label's
score no matter how often it occurs — the score counts which keywords
are present, not occurrences: it equals the number of present keywords
and is bounded by the keyword-list length; `"!!!"` scores energetic 1,
not 3, so `"thank !!!"` is a 1–1 tie that the earlier label warm wins. -/
theorem C10_score_counts_presence :
    (∀ text keywords, emoScore text keywords
        = (keywords.filter (fun kw => hasSubstr text kw)).length) ∧
    (∀ text keywords, emoScore text keywords ≤ keywords.length) ∧
    emoScore (pyLower "!!!") ["!", "great", "awesome"] = 1 ∧
    detect_emotion "!!!" = "energetic" ∧
    detect_emotion "thank !!!" = "warm" :=
  ⟨emoScore_eq_presence,
   fun text keywords => by
     rw [emoScore_eq_presence]
     exact List.length_filter_le _ _,
   by decide, by decide, by decide⟩

end Characterbot
